import Mathlib

/-!
Shallow embedding of the HATVP declaration extraction and consolidation
engine of `src/scripts/generate-elus.py`, together with proofs about the
behaviour stated in the specification.

Modelling conventions:
- Python floats are modelled as rationals (`ℚ`); every amount handled by the
  claims is a small decimal and no property proved here depends on binary
  floating-point rounding.
- Python dicts read through a fallback-key chain (`row.get("a") or
  row.get("b") or ""`) are modelled as association lists queried with the
  same chain; the empty string is falsy, as in Python.
- XML documents are modelled as trees of tag, optional text and children;
  ElementTree lookup is modelled for the two path shapes the script uses,
  relative child chains (`"nature/id"`) and descendant searches
  (`".//itemsDto"`).
- Network and file-system plumbing is out of scope per the spec: the
  download step is an explicit collaborator function, and the wall clock
  read by `datetime.utcnow()` is an explicit parameter.
- Unicode-specific steps (NFD accent stripping, full-Unicode case folding)
  act as the identity on the ASCII data exercised here and are modelled for
  ASCII strings.
-/

namespace Hatvp

/-! ### Basic string helpers (Python `str` semantics on the data in scope) -/

/-- Characters removed by Python `str.strip()` on the data in scope. -/
def trimChars (cs : List Char) : List Char :=
  ((cs.dropWhile Char.isWhitespace).reverse.dropWhile Char.isWhitespace).reverse

/-- Python `s.strip()`. -/
def strip (s : String) : String := String.mk (trimChars s.data)

/-- Python `s.lower()` (ASCII data). -/
def toLowerStr (s : String) : String := String.mk (s.data.map Char.toLower)

/-- Python `s.upper()` (ASCII data). -/
def toUpperStr (s : String) : String := String.mk (s.data.map Char.toUpper)

/-- Python `a or b` on strings: the empty string is falsy. -/
def pyOr (a b : String) : String := if a = "" then b else a

/-- Split a character list on a separator character (like `str.split(sep)`). -/
def splitOnChar (sep : Char) : List Char → List (List Char)
  | [] => [[]]
  | c :: cs =>
    let r := splitOnChar sep cs
    if c = sep then [] :: r
    else
      match r with
      | [] => [[c]]
      | h :: t => (c :: h) :: t

/-- Numeric value of a digit list (callers check digit-ness first). -/
def digitsVal (cs : List Char) : ℕ :=
  cs.foldl (fun a c => a * 10 + (c.toNat - 48)) 0

/-! ### Model of Python `float(s)` on decimal input

`float()` accepts an optional sign, a mantissa `digits[.digits]` (digits may
be on one side only), and an optional `e`/`E` exponent.  The special forms
`inf`/`nan` and digit-group underscores also accepted by `float()` never
arise from amount strings and are not modelled; any other character makes
`float()` raise `ValueError`, modelled as `none`. -/

/-- A nonempty all-digit list, as a number. -/
def parseDigits? (cs : List Char) : Option ℕ :=
  if cs ≠ [] ∧ cs.all Char.isDigit then some (digitsVal cs) else none

/-- `digits[.digits]` with at least one digit overall. -/
def parseMantissa? (cs : List Char) : Option ℚ :=
  match splitOnChar '.' cs with
  | [intp] => (parseDigits? intp).map (fun n => (n : ℚ))
  | [intp, fracp] =>
    if (intp ≠ [] ∨ fracp ≠ []) ∧ intp.all Char.isDigit ∧ fracp.all Char.isDigit then
      some ((digitsVal intp : ℚ) + (digitsVal fracp : ℚ) / (10 : ℚ) ^ fracp.length)
    else none
  | _ => none

/-- Exponent part after `e`, with optional sign. -/
def parseExponent? : List Char → Option ℤ
  | '+' :: rest => (parseDigits? rest).map Int.ofNat
  | '-' :: rest => (parseDigits? rest).map (fun n => -(n : ℤ))
  | cs => (parseDigits? cs).map Int.ofNat

/-- Unsigned float literal: mantissa with optional exponent. -/
def parseUnsignedFloat? (cs : List Char) : Option ℚ :=
  match splitOnChar 'e' (cs.map (fun c => if c = 'E' then 'e' else c)) with
  | [m] => parseMantissa? m
  | [m, e] => (parseMantissa? m).bind (fun q => (parseExponent? e).map (fun z => q * (10 : ℚ) ^ z))
  | _ => none

/-- Model of Python `float(s)` on decimal input. -/
def pyFloat? (s : String) : Option ℚ :=
  match s.data with
  | '+' :: rest => parseUnsignedFloat? rest
  | '-' :: rest => (parseUnsignedFloat? rest).map Neg.neg
  | _ => parseUnsignedFloat? s.data

/-! ### The Amount Normalizer (`parse_montant`) -/

/-- `parse_montant`: empty input is `None`; otherwise remove no-break spaces
and ordinary spaces, turn the comma into a dot, strip, and try `float`.
The chained single-character `str.replace` calls of the source are modelled
as one filter (drop `\xa0` and spaces) followed by one map (comma to dot). -/
def parse_montant (s : String) : Option ℚ :=
  if s = "" then none
  else
    let cleaned := String.mk
      ((s.data.filter (fun c => c ≠ '\u00A0' ∧ c ≠ ' ')).map
        (fun c => if c = ',' then '.' else c))
    pyFloat? (strip cleaned)

/-! ### Dates: model of the three `strptime` formats tried by `parse_date`

`datetime.strptime` matches `%d`/`%m`/`%H`/`%M`/`%S` greedily against one or
two digits, `%Y` against up to four digits, and validates the result through
the `datetime` constructor (month and day-of-month ranges, leap years).  A
parsed datetime is encoded as a mixed-radix natural number whose order
coincides with chronological order on validated fields. -/

/-- Greedily read at least one and at most `k` digits. -/
def grabDigits (k : ℕ) (cs : List Char) : Option (ℕ × List Char) :=
  let ds := (cs.take k).takeWhile Char.isDigit
  if ds.isEmpty then none else some (digitsVal ds, cs.drop ds.length)

/-- Require a literal character. -/
def litChar (c : Char) : List Char → Option (List Char)
  | [] => none
  | d :: cs => if d = c then some cs else none

def isLeapYear (y : ℕ) : Bool :=
  (y % 4 == 0 && y % 100 != 0) || y % 400 == 0

def daysInMonth (y m : ℕ) : ℕ :=
  if m == 2 then (if isLeapYear y then 29 else 28)
  else if m == 4 || m == 6 || m == 9 || m == 11 then 30
  else 31

def validDate (y m d : ℕ) : Bool :=
  decide (1 ≤ y) && decide (y ≤ 9999) && decide (1 ≤ m) && decide (m ≤ 12) &&
    decide (1 ≤ d) && decide (d ≤ daysInMonth y m)

def validTime (h mi s : ℕ) : Bool :=
  decide (h ≤ 23) && decide (mi ≤ 59) && decide (s ≤ 59)

/-- Mixed-radix encoding of a datetime; monotone in each validated field. -/
def dateKey (y mo d h mi s : ℕ) : ℕ :=
  ((((y * 13 + mo) * 32 + d) * 24 + h) * 60 + mi) * 60 + s

/-- `datetime.min`, the fallback when no format matches. -/
def datetimeMinKey : ℕ := dateKey 1 1 1 0 0 0

/-- Format `"%d/%m/%Y"` up to the year, shared by the first two formats. -/
def parseDMY (cs : List Char) : Option (ℕ × ℕ × ℕ × List Char) := do
  let (d, cs) ← grabDigits 2 cs
  let cs ← litChar '/' cs
  let (m, cs) ← grabDigits 2 cs
  let cs ← litChar '/' cs
  let (y, cs) ← grabDigits 4 cs
  pure (d, m, y, cs)

/-- Format `"%d/%m/%Y %H:%M:%S"`. -/
def tryFormatDMYHMS (cs : List Char) : Option ℕ := do
  let (d, m, y, cs) ← parseDMY cs
  let cs ← litChar ' ' cs
  let (h, cs) ← grabDigits 2 cs
  let cs ← litChar ':' cs
  let (mi, cs) ← grabDigits 2 cs
  let cs ← litChar ':' cs
  let (s, cs) ← grabDigits 2 cs
  if cs.isEmpty && validDate y m d && validTime h mi s then pure (dateKey y m d h mi s) else none

/-- Format `"%d/%m/%Y"`. -/
def tryFormatDMY (cs : List Char) : Option ℕ := do
  let (d, m, y, cs) ← parseDMY cs
  if cs.isEmpty && validDate y m d then pure (dateKey y m d 0 0 0) else none

/-- Format `"%Y-%m-%d"`. -/
def tryFormatYMD (cs : List Char) : Option ℕ := do
  let (y, cs) ← grabDigits 4 cs
  let cs ← litChar '-' cs
  let (m, cs) ← grabDigits 2 cs
  let cs ← litChar '-' cs
  let (d, cs) ← grabDigits 2 cs
  if cs.isEmpty && validDate y m d then pure (dateKey y m d 0 0 0) else none

/-- `parse_date`: try the three formats in order on the stripped string;
fall back to `datetime.min` when none matches. -/
def parse_date_str (s : String) : ℕ :=
  let cs := trimChars s.data
  match tryFormatDMYHMS cs with
  | some k => k
  | none =>
    match tryFormatDMY cs with
    | some k => k
    | none =>
      match tryFormatYMD cs with
      | some k => k
      | none => datetimeMinKey

/-! ### The Name Normalizer and the CSV index rows -/

def isNameSep (c : Char) : Bool := c == '-' || c.isWhitespace

/-- Collapse a run of consecutive spaces left by the separator replacement. -/
def dedupSpace : List Char → List Char
  | [] => []
  | [c] => [c]
  | c :: d :: cs =>
    if c = ' ' ∧ d = ' ' then dedupSpace (d :: cs)
    else c :: dedupSpace (d :: cs)

/-- `normalize_name`: lower-case, replace runs matching `[-\s]+` by a single
space, strip.  The NFD accent-stripping step of the source is the identity
on the ASCII names exercised by the claims and is modelled for ASCII data. -/
def normalize_name (s : String) : String :=
  strip (String.mk (dedupSpace ((toLowerStr s).data.map (fun c => if isNameSep c then ' ' else c))))

/-- One line of the HATVP index CSV, as the key-value mapping `csv.DictReader`
produces; `dict.get` is association-list lookup defaulting to the empty
(falsy) string. -/
abbrev Row := List (String × String)

def rget (r : Row) (k : String) : String :=
  (((r.find? (fun kv => kv.fst = k)).map (fun kv => kv.snd)).getD "")

/-- `(row.get("nom") or row.get("Nom") or row.get("nomDeclarant") or "").strip()` -/
def row_nom (r : Row) : String :=
  strip (pyOr (pyOr (rget r "nom") (rget r "Nom")) (rget r "nomDeclarant"))

def row_prenom (r : Row) : String :=
  strip (pyOr (pyOr (rget r "prenom") (rget r "Prenom")) (rget r "prenomDeclarant"))

/-- The date key of a row, via the `dateDepot` fallback chain. -/
def parse_date (r : Row) : ℕ :=
  parse_date_str (pyOr (pyOr (rget r "dateDepot") (rget r "DateDepot")) (rget r "date_depot"))

/-- The matching test of the `find_declarations_for_elu` loop: skip rows with
an empty family name, keep rows whose normalized names equal the target. -/
def matches_elu (norm_prenom norm_nom : String) (r : Row) : Bool :=
  (row_nom r != "") && (normalize_name (row_nom r) == norm_nom)
    && (normalize_name (row_prenom r) == norm_prenom)

/-- Stable insertion preserving descending date order: the new element goes
before the first element whose date key is at most its own.  This realises
Python `list.sort(key=parse_date, reverse=True)`, which is stable (rows with
equal keys keep their original relative order). -/
def insertByDateDesc (a : Row) : List Row → List Row
  | [] => [a]
  | b :: l => if parse_date b ≤ parse_date a then a :: b :: l else b :: insertByDateDesc a l

def sortByDateDesc : List Row → List Row
  | [] => []
  | a :: l => insertByDateDesc a (sortByDateDesc l)

/-- `find_declarations_for_elu`: filter the index on normalized-name equality,
then sort by filing date, most recent first. -/
def find_declarations_for_elu (index : List Row) (prenom nom : String) : List Row :=
  sortByDateDesc (index.filter (matches_elu (normalize_name prenom) (normalize_name nom)))

/-! ### Declaration type and XML URL of a row -/

def DSP_TYPES : List String := ["DSP", "DSPM"]

def DI_TYPES : List String := ["DI", "DIM"]

def get_declaration_type (r : Row) : String :=
  toUpperStr (strip (pyOr (pyOr (rget r "typeDeclaration") (rget r "TypeDeclaration")) (rget r "type")))

def HATVP_XML_BASE : String := "https://www.hatvp.fr/livraison/dossiers/"

def get_xml_url (row : Row) : Option String :=
  let url := strip (pyOr (pyOr (rget row "url") (rget row "Url")) (rget row "urlFichier"))
  if ("http".data).isPrefixOf url.data then some url
  else
    let fichier := strip (pyOr (pyOr (pyOr (rget row "fichier") (rget row "Fichier")) (rget row "nomFichier")) url)
    if fichier != "" then
      some (HATVP_XML_BASE ++ (if (".xml".data).isSuffixOf fichier.data then fichier else fichier ++ ".xml"))
    else none

/-! ### XML documents and ElementTree lookup

An element is a tag, optional text and a child list.  The child list is its
own inductive so that every function below is structural and reduces inside
the kernel. -/

mutual

inductive Xml where
  | node (tag : String) (text : Option String) (children : XmlList)

inductive XmlList where
  | nil
  | cons (head : Xml) (tail : XmlList)

end

def Xml.tag : Xml → String
  | .node t _ _ => t

def Xml.text : Xml → Option String
  | .node _ s _ => s

def Xml.children : Xml → XmlList
  | .node _ _ cs => cs

def XmlList.toList : XmlList → List Xml
  | .nil => []
  | .cons x xs => x :: xs.toList

def ofList : List Xml → XmlList
  | [] => .nil
  | x :: xs => .cons x (ofList xs)

/-- Element with children and no text of its own. -/
def el (tag : String) (children : List Xml) : Xml := .node tag none (ofList children)

/-- Leaf element carrying text. -/
def elT (tag : String) (txt : String) : Xml := .node tag (some txt) .nil

mutual

/-- All proper descendants in document (preorder) order, as `elem.iter()`
enumerates them. -/
def Xml.descendants : Xml → List Xml
  | .node _ _ cs => XmlList.descList cs

def XmlList.descList : XmlList → List Xml
  | .nil => []
  | .cons c cs => c :: Xml.descendants c ++ XmlList.descList cs

end

def childrenTag (x : Xml) (t : String) : List Xml :=
  (x.children.toList).filter (fun c => c.tag = t)

/-- The ElementTree paths the script uses: a relative child chain such as
`"nature/id"`, or a descendant search such as `".//itemsDto"` (optionally
followed by child steps, as in `".//items/items"`). -/
inductive XPath where
  | rel (chain : List String)
  | desc (chain : List String)

/-- All matches of a relative child chain, in `iterfind` order. -/
def findAllRel : List String → Xml → List Xml
  | [], x => [x]
  | t :: ts, x => (childrenTag x t).flatMap (findAllRel ts)

/-- All matches of a path (`findall`). -/
def Xml.findAll (x : Xml) : XPath → List Xml
  | .rel chain => findAllRel chain x
  | .desc [] => []
  | .desc (t :: ts) => ((x.descendants).filter (fun d => d.tag = t)).flatMap (findAllRel ts)

/-- First match of a path (`find`). -/
def Xml.findFirst (x : Xml) (p : XPath) : Option Xml := (x.findAll p).head?

/-- `xml_text(element, path, default)`: locate the node; return its stripped
text unless the node is missing, its text is falsy, or the stripped text is
empty or the redaction marker. -/
def xml_text (e : Option Xml) (p : XPath) (dflt : String) : String :=
  match e with
  | none => dflt
  | some x =>
    match x.findFirst p with
    | none => dflt
    | some n =>
      match n.text with
      | none => dflt
      | some s =>
        if s = "" then dflt
        else
          let t := strip s
          if t ≠ "" ∧ t ≠ "[Données non publiées]" then t else dflt

/-- `xml_text` with the default default, as almost every call site uses it. -/
def xt (x : Xml) (p : XPath) : String := xml_text (some x) p ""

/-- A `or`-chain of `xml_text` lookups ending in `""`. -/
def xts (x : Xml) (ps : List XPath) : String :=
  ps.foldr (fun p acc => pyOr (xt x p) acc) ""

/-- `xml_bool`. -/
def xml_bool (x : Xml) (p : XPath) : Bool := toLowerStr (xt x p) == "true"

/-- `is_section_empty`: a missing section counts as empty, otherwise only an
explicit `neant` marker does. -/
def is_section_empty : Option Xml → Bool
  | none => true
  | some x => toLowerStr (xt x (.rel ["neant"])) == "true"

/-- The item enumeration of every section parser:
`section.findall(".//items/items") or section.findall(".//items")`. -/
def items_of (sec : Xml) : List Xml :=
  let nested := sec.findAll (.desc ["items", "items"])
  if nested.isEmpty then sec.findAll (.desc ["items"]) else nested

/-- `any(child.text for child in item)`: some direct child has truthy text. -/
def any_child_text (item : Xml) : Bool :=
  (item.children.toList).any (fun c => (c.text.getD "") != "")

/-! ### Section records

One structure per section dict of the source, with the same field names in
the same order; the constant `"type"` tag of each dict is omitted except for
the income list, whose two item shapes it distinguishes. -/

structure Instrument where
  nature : String
  nature_code : String
  description : String
  valeur_euro : Option ℚ
  mode_detention : String
  nombre_titres : String
  valeur_unitaire_euro : Option ℚ
  isin : String
  devise : String
  date_acquisition : String
  etablissement : String
  commentaire : String
deriving DecidableEq

structure Participation where
  nom_societe : String
  forme_juridique : String
  nb_parts : String
  valeur_euro : Option ℚ
  pourcentage_detention : String
  mode_detention : String
  objet_social : String
  adresse : String
  siren : String
  date_acquisition : String
  commentaire : String
deriving DecidableEq

structure BienImmobilier where
  nature : String
  nature_code : String
  adresse : String
  surface_m2 : String
  valeur_euro : Option ℚ
  mode_detention : String
  date_acquisition : String
  mode_acquisition : String
  usage : String
  commentaire : String
deriving DecidableEq

structure Pret where
  nature : String
  etablissement : String
  montant_emprunte_euro : Option ℚ
  capital_restant_du_euro : Option ℚ
  date_souscription : String
  duree_annees : String
  taux_interet : String
  objet : String
  commentaire : String
deriving DecidableEq

structure AutreBien where
  nature : String
  description : String
  valeur_euro : Option ℚ
  date_acquisition : String
  commentaire : String
deriving DecidableEq

/-! ### Section parsers (patrimony sections) -/

/-- The item dict of `parse_instruments_financiers`. -/
def mkInstrument (item : Xml) : Instrument :=
  let nature_id := xts item [.rel ["nature", "id"], .rel ["typeInstrument", "id"]]
  let nature_label := pyOr (xts item [.rel ["nature", "label"], .rel ["typeInstrument", "label"]]) nature_id
  let valeur_str := xts item [.rel ["valeur"], .rel ["valeurEstimee"], .rel ["montant"], .rel ["valeurTotale"]]
  { nature := nature_label
    nature_code := nature_id
    description := xts item [.rel ["description"], .rel ["denomination"], .rel ["libelle"], .rel ["nomEmetteur"]]
    valeur_euro := parse_montant valeur_str
    mode_detention := xts item [.rel ["modeDetention", "label"], .rel ["modeDetention", "id"]]
    nombre_titres := xts item [.rel ["nombreTitres"], .rel ["nbTitres"]]
    valeur_unitaire_euro := parse_montant (xt item (.rel ["valeurUnitaire"]))
    isin := xts item [.rel ["codeISIN"], .rel ["isin"]]
    devise := xts item [.rel ["devise"], .rel ["devise", "id"]]
    date_acquisition := xts item [.rel ["dateAcquisition"], .rel ["dateOuverture"]]
    etablissement := xts item [.rel ["etablissement"], .rel ["nomEtablissement"]]
    commentaire := xts item [.rel ["commentaire"], .rel ["observation"]] }

def parse_instruments_financiers (root : Xml) : List Instrument :=
  let sect := root.findFirst (.desc ["instrumentsFinanciersDto"])
  if is_section_empty sect then []
  else
    match sect with
    | none => []
    | some sec =>
      (items_of sec).filterMap fun item =>
        if !any_child_text item then none
        else
          let instrument := mkInstrument item
          if instrument.nature = "" ∧ instrument.description = "" ∧ instrument.valeur_euro = none then none
          else some instrument

/-- The item dict of `parse_participation_financiere`. -/
def mkParticipation (item : Xml) : Participation :=
  let nom_societe := xts item [.rel ["nomSociete"], .rel ["denomination"], .rel ["raisonSociale"]]
  let valeur_str := xts item [.rel ["valeurParts"], .rel ["valeur"], .rel ["montant"], .rel ["valeurEstimee"]]
  { nom_societe := nom_societe
    forme_juridique := xts item [.rel ["formeJuridique"], .rel ["typeStructure", "label"]]
    nb_parts := xts item [.rel ["nbParts"], .rel ["nombreParts"]]
    valeur_euro := parse_montant valeur_str
    pourcentage_detention := xts item [.rel ["pourcentage"], .rel ["tauxDetention"]]
    mode_detention := xts item [.rel ["modeDetention", "label"], .rel ["modeDetention", "id"]]
    objet_social := xts item [.rel ["objetSocial"], .rel ["activite"], .rel ["secteurActivite"]]
    adresse := xts item [.rel ["adresse"], .rel ["siege"]]
    siren := xts item [.rel ["siren"], .rel ["numeroSIREN"]]
    date_acquisition := xts item [.rel ["dateAcquisition"], .rel ["dateEntree"]]
    commentaire := xts item [.rel ["commentaire"], .rel ["observation"]] }

def parse_participation_financiere (root : Xml) : List Participation :=
  let sect := root.findFirst (.desc ["participationFinanciereDto"])
  if is_section_empty sect then []
  else
    match sect with
    | none => []
    | some sec =>
      (items_of sec).filterMap fun item =>
        if !any_child_text item then none
        else
          let participation := mkParticipation item
          if participation.nom_societe = "" ∧ participation.valeur_euro = none then none
          else some participation

/-- The item dict of `parse_biens_immobiliers`. -/
def mkBien (item : Xml) : BienImmobilier :=
  let nature := xts item [.rel ["nature", "label"], .rel ["nature", "id"], .rel ["typeBien", "label"]]
  let valeur_str := xts item [.rel ["valeur"], .rel ["valeurEstimee"], .rel ["montant"]]
  { nature := nature
    nature_code := xts item [.rel ["nature", "id"], .rel ["typeBien", "id"]]
    adresse := xts item [.rel ["adresse"], .rel ["localisation"], .rel ["commune"]]
    surface_m2 := xts item [.rel ["surface"], .rel ["superficieM2"]]
    valeur_euro := parse_montant valeur_str
    mode_detention := xts item [.rel ["modeDetention", "label"], .rel ["modeDetention", "id"]]
    date_acquisition := xts item [.rel ["dateAcquisition"], .rel ["dateAchat"]]
    mode_acquisition := xts item [.rel ["modeAcquisition", "label"], .rel ["modeAcquisition", "id"], .rel ["origine"]]
    usage := xts item [.rel ["usage"], .rel ["affectation"]]
    commentaire := xts item [.rel ["commentaire"], .rel ["observation"]] }

def parse_biens_immobiliers (root : Xml) : List BienImmobilier :=
  let sect := root.findFirst (.desc ["biensImmobiliersDto"])
  if is_section_empty sect then []
  else
    match sect with
    | none => []
    | some sec =>
      (items_of sec).filterMap fun item =>
        if !any_child_text item then none
        else
          let bien := mkBien item
          if bien.nature = "" ∧ bien.adresse = "" ∧ bien.valeur_euro = none then none
          else some bien

/-- The item dict of `parse_prets_bancaires`. -/
def mkPret (item : Xml) : Pret :=
  let montant_str := xts item [.rel ["montant"], .rel ["montantEmprunte"], .rel ["capitalEmprunte"]]
  let capital_restant_str := xts item [.rel ["capitalRestantDu"], .rel ["montantRestant"], .rel ["solde"]]
  { nature := xts item [.rel ["nature", "label"], .rel ["nature", "id"], .rel ["typeCredit", "label"]]
    etablissement := xts item [.rel ["etablissement"], .rel ["organisme"], .rel ["preteur"]]
    montant_emprunte_euro := parse_montant montant_str
    capital_restant_du_euro := parse_montant capital_restant_str
    date_souscription := xts item [.rel ["dateSouscription"], .rel ["dateEmprunt"], .rel ["dateOuverture"]]
    duree_annees := xts item [.rel ["duree"], .rel ["dureeAnnees"]]
    taux_interet := xts item [.rel ["tauxInteret"], .rel ["taux"]]
    objet := xts item [.rel ["objet"], .rel ["finalite"], .rel ["motif"]]
    commentaire := xts item [.rel ["commentaire"], .rel ["observation"]] }

def parse_prets_bancaires (root : Xml) : List Pret :=
  let sect := root.findFirst (.desc ["pretsBancairesDto"])
  if is_section_empty sect then []
  else
    match sect with
    | none => []
    | some sec =>
      (items_of sec).filterMap fun item =>
        if !any_child_text item then none
        else
          let pret := mkPret item
          if pret.montant_emprunte_euro = none ∧ pret.capital_restant_du_euro = none then none
          else some pret

/-- The item dict of `parse_autres_biens`. -/
def mkAutreBien (item : Xml) : AutreBien :=
  let valeur_str := xts item [.rel ["valeur"], .rel ["valeurEstimee"], .rel ["montant"]]
  { nature := xts item [.rel ["nature", "label"], .rel ["nature", "id"], .rel ["categorie", "label"]]
    description := xts item [.rel ["description"], .rel ["designation"], .rel ["libelle"]]
    valeur_euro := parse_montant valeur_str
    date_acquisition := xts item [.rel ["dateAcquisition"], .rel ["dateAchat"]]
    commentaire := xts item [.rel ["commentaire"], .rel ["observation"]] }

def parse_autres_biens (root : Xml) : List AutreBien :=
  let sect := root.findFirst (.desc ["autresBiensDto"])
  if is_section_empty sect then []
  else
    match sect with
    | none => []
    | some sec =>
      (items_of sec).filterMap fun item =>
        if !any_child_text item then none
        else
          let bien := mkAutreBien item
          if bien.nature = "" ∧ bien.description = "" ∧ bien.valeur_euro = none then none
          else some bien

/-! ### Income, mandates, leadership roles -/

/-- One entry of the `revenus_activites` list.  The source appends two dict
shapes to one list (`"revenu"` from `revenusDto` and `"activite_remuneree"`
from `activitesRemunerees`); `typ` mirrors their `"type"` tag and fields
absent from a shape stay empty. -/
structure Revenu where
  typ : String
  nature : String
  employeur : String
  fonction : String
  activite : String
  secteur_activite : String
  montant_annuel_euro : Option ℚ
  date_debut : String
  date_fin : String
  commentaire : String
deriving DecidableEq

structure Mandat where
  nature : String
  fonction : String
  collectivite : String
  circonscription : String
  date_debut : String
  date_fin : String
  en_cours : Bool
  commentaire : String
deriving DecidableEq

structure Fonction where
  fonction : String
  organisme : String
  nature_organisme : String
  secteur_activite : String
  remuneree : Bool
  montant_annuel_euro : Option ℚ
  date_debut : String
  date_fin : String
  en_cours : Bool
  commentaire : String
deriving DecidableEq

/-- The `revenusDto` item dict. -/
def mkRevenu (item : Xml) : Revenu :=
  let montant_str := xts item [.rel ["montant"], .rel ["montantAnnuel"], .rel ["revenusAnnuels"]]
  { typ := "revenu"
    nature := xts item [.rel ["nature", "label"], .rel ["nature", "id"], .rel ["typeRevenu", "label"]]
    employeur := xts item [.rel ["employeur"], .rel ["source"], .rel ["organisme"]]
    fonction := ""
    activite := xts item [.rel ["activite"], .rel ["fonction"]]
    secteur_activite := ""
    montant_annuel_euro := parse_montant montant_str
    date_debut := xts item [.rel ["dateDebut"], .rel ["depuis"]]
    date_fin := xts item [.rel ["dateFin"], .rel ["jusqua"]]
    commentaire := xts item [.rel ["commentaire"], .rel ["observation"]] }

/-- The `activitesRemunerees` item dict. -/
def mkActivite (item : Xml) : Revenu :=
  let montant_str := xts item [.rel ["montant"], .rel ["remunerationAnnuelle"], .rel ["revenuAnnuel"]]
  { typ := "activite_remuneree"
    nature := xts item [.rel ["nature", "label"], .rel ["nature", "id"], .rel ["typeActivite", "label"]]
    employeur := xts item [.rel ["employeur"], .rel ["nomEmployeur"], .rel ["organisme"]]
    fonction := xts item [.rel ["fonction"], .rel ["intitulePoste"], .rel ["activite"]]
    activite := ""
    secteur_activite := xts item [.rel ["secteurActivite"], .rel ["domaine"]]
    montant_annuel_euro := parse_montant montant_str
    date_debut := xts item [.rel ["dateDebut"], .rel ["depuis"]]
    date_fin := xts item [.rel ["dateFin"], .rel ["jusqua"]]
    commentaire := xts item [.rel ["commentaire"], .rel ["observation"]] }

def parse_revenus_activites (root : Xml) : List Revenu :=
  let sect_revenus := root.findFirst (.desc ["revenusDto"])
  let fromRevenus :=
    if is_section_empty sect_revenus then []
    else
      match sect_revenus with
      | none => []
      | some sec =>
        (items_of sec).filterMap fun item =>
          if !any_child_text item then none
          else
            let revenu := mkRevenu item
            if revenu.nature = "" ∧ revenu.montant_annuel_euro = none then none
            else some revenu
  let sect_activites := root.findFirst (.desc ["activitesRemunerees"])
  let fromActivites :=
    if is_section_empty sect_activites then []
    else
      match sect_activites with
      | none => []
      | some sec =>
        (items_of sec).filterMap fun item =>
          if !any_child_text item then none
          else
            let activite := mkActivite item
            if activite.employeur = "" ∧ activite.fonction = "" then none
            else some activite
  fromRevenus ++ fromActivites

def mkMandat (item : Xml) : Mandat :=
  { nature := xts item [.rel ["nature", "label"], .rel ["nature", "id"], .rel ["typeMandat", "label"]]
    fonction := xts item [.rel ["fonction"], .rel ["intituleFonction"], .rel ["qualite"]]
    collectivite := xts item [.rel ["collectivite"], .rel ["organe"], .rel ["assemblee"]]
    circonscription := xts item [.rel ["circonscription"], .rel ["territoire"], .rel ["zone"]]
    date_debut := xts item [.rel ["dateDebut"], .rel ["depuis"]]
    date_fin := xts item [.rel ["dateFin"], .rel ["jusqua"]]
    en_cours := xml_bool item (.rel ["enCours"])
    commentaire := xts item [.rel ["commentaire"], .rel ["observation"]] }

def parse_mandats_electifs (root : Xml) : List Mandat :=
  let sect := root.findFirst (.desc ["mandatsElectifsDto"])
  if is_section_empty sect then []
  else
    match sect with
    | none => []
    | some sec =>
      (items_of sec).filterMap fun item =>
        if !any_child_text item then none
        else
          let mandat := mkMandat item
          if mandat.nature = "" ∧ mandat.fonction = "" then none
          else some mandat

def mkFonction (item : Xml) : Fonction :=
  { fonction := xts item [.rel ["fonction"], .rel ["intituleFonction"], .rel ["titre"]]
    organisme := xts item [.rel ["organisme"], .rel ["nomOrganisme"], .rel ["structure"]]
    nature_organisme := xts item [.rel ["natureOrganisme", "label"], .rel ["natureOrganisme", "id"], .rel ["typeStructure", "label"]]
    secteur_activite := xts item [.rel ["secteurActivite"], .rel ["domaine"], .rel ["objet"]]
    remuneree := xml_bool item (.rel ["remuneree"])
    montant_annuel_euro := parse_montant (xts item [.rel ["montant"], .rel ["remuneration"]])
    date_debut := xts item [.rel ["dateDebut"], .rel ["depuis"]]
    date_fin := xts item [.rel ["dateFin"], .rel ["jusqua"]]
    en_cours := xml_bool item (.rel ["enCours"])
    commentaire := xts item [.rel ["commentaire"], .rel ["observation"]] }

/-- One pass of the `parse_fonctions_dirigeantes` loop for one section name. -/
def parse_fonctions_section (root : Xml) (name : String) : List Fonction :=
  let sect := root.findFirst (.desc [name])
  if is_section_empty sect then []
  else
    match sect with
    | none => []
    | some sec =>
      (items_of sec).filterMap fun item =>
        if !any_child_text item then none
        else
          let fonction := mkFonction item
          if fonction.fonction = "" ∧ fonction.organisme = "" then none
          else some fonction

def parse_fonctions_dirigeantes (root : Xml) : List Fonction :=
  (["fonctionsDto", "fonctionsDirigeantes", "fonctionsBenevoles"].map (parse_fonctions_section root)).flatten

/-! ### Family block and observations -/

structure Conjoint where
  nom : String
  prenom : String
  profession : String
  employeur : String
  secteur_activite : String
deriving DecidableEq

structure Enfant where
  date_naissance : String
  a_charge : Bool
deriving DecidableEq

/-- `famille` dict: `conjoint` is `none` for the initial empty dict `{}` and
`some` once the `<conjoint>` element was found; a present-but-all-empty
conjoint dict is truthy in Python and hence `some`. -/
structure Famille where
  situation_familiale : String
  conjoint : Option Conjoint
  enfants : List Enfant
deriving DecidableEq

def parse_informations_familiales (root : Xml) : Famille :=
  let situation := xts root [.desc ["situationFamiliale", "label"], .desc ["situationFamiliale", "id"]]
  let conjoint :=
    match root.findFirst (.desc ["conjoint"]) with
    | none => none
    | some conjoint_section =>
      some
        { nom := xt conjoint_section (.rel ["nom"])
          prenom := xt conjoint_section (.rel ["prenom"])
          profession := xts conjoint_section [.rel ["profession"], .rel ["activiteProfessionnelle"]]
          employeur := xts conjoint_section [.rel ["employeur"], .rel ["nomEmployeur"]]
          secteur_activite := xt conjoint_section (.rel ["secteurActivite"]) }
  let enfants_section := root.findFirst (.desc ["enfantsDto"])
  let enfants :=
    if is_section_empty enfants_section then []
    else
      match enfants_section with
      | none => []
      | some sec =>
        (items_of sec).filterMap fun item =>
          if !any_child_text item then none
          else
            let enfant : Enfant :=
              { date_naissance := xts item [.rel ["dateNaissance"], .rel ["anneeNaissance"]]
                a_charge := xml_bool item (.rel ["aCharge"]) }
            if enfant.date_naissance != "" then some enfant else none
  { situation_familiale := situation, conjoint := conjoint, enfants := enfants }

/-- Join nonempty strings with a separator (`" | ".join`). -/
def joinSep (sep : String) : List String → String
  | [] => ""
  | [s] => s
  | s :: rest => s ++ sep ++ joinSep sep rest

def parse_observations (root : Xml) : String :=
  let observations :=
    (["observations", "observationsGenerales", "commentaire", "precisions"].map
      (fun f => xt root (.desc [f]))).filter (fun s => s ≠ "")
  joinSep " | " observations

/-! ### The Declaration Parser (`parse_declaration_xml`) -/

structure Declarant where
  nom : String
  prenom : String
  qualite : String
  organe : String
  mandat : String
deriving DecidableEq

structure ParsedDecl where
  uuid : String
  url_xml : String
  type_declaration : String
  type_declaration_label : String
  date_depot : String
  declarant : Declarant
  instruments_financiers : List Instrument
  participations_financieres : List Participation
  biens_immobiliers : List BienImmobilier
  prets_bancaires : List Pret
  autres_biens : List AutreBien
  revenus_activites : List Revenu
  mandats_electifs : List Mandat
  fonctions_dirigeantes : List Fonction
  famille : Famille
  observations : String
deriving DecidableEq

/-- A raw fetched document: either bytes that `ET.fromstring` rejects with a
`ParseError`, or a well-formed tree. -/
inductive RawDoc where
  | malformed
  | wellFormed (root : Xml)

/-- The result dict built for a well-formed document. -/
def parse_xml_root (root : Xml) (url : String) : ParsedDecl :=
  let type_decl_id := xt root (.rel ["general", "typeDeclaration", "id"])
  let type_decl_label := pyOr (xt root (.rel ["general", "typeDeclaration", "label"])) type_decl_id
  { uuid := xt root (.rel ["uuid"])
    url_xml := url
    type_declaration := type_decl_id
    type_declaration_label := type_decl_label
    date_depot := xt root (.rel ["dateDepot"])
    declarant :=
      { nom := xt root (.rel ["general", "declarant", "nom"])
        prenom := xt root (.rel ["general", "declarant", "prenom"])
        qualite := xt root (.rel ["general", "qualiteDeclarant"])
        organe := xt root (.rel ["general", "organe", "labelOrgane"])
        mandat := xt root (.rel ["general", "qualiteMandat", "labelTypeMandat"]) }
    instruments_financiers := parse_instruments_financiers root
    participations_financieres := parse_participation_financiere root
    biens_immobiliers := parse_biens_immobiliers root
    prets_bancaires := parse_prets_bancaires root
    autres_biens := parse_autres_biens root
    revenus_activites := parse_revenus_activites root
    mandats_electifs := parse_mandats_electifs root
    fonctions_dirigeantes := parse_fonctions_dirigeantes root
    famille := parse_informations_familiales root
    observations := parse_observations root }

/-- `parse_declaration_xml`: a malformed document yields the empty (falsy)
dict, modelled `none`; the exception is caught inside, never propagated. -/
def parse_declaration_xml : RawDoc → String → Option ParsedDecl
  | .malformed, _ => none
  | .wellFormed root, url => some (parse_xml_root root url)

/-! ### Consolidation per person (`fetch_hatvp_complete_for_elu`)

The network, cache and logging plumbing is out of scope per the spec: the
`download_xml` step is the collaborator `download` (keyed by the XML URL,
`none` for a failed or empty download), `datetime.utcnow().isoformat()` is
the parameter `now`, and the model follows the `dry_run=False` path. -/

/-- The metadata dict appended to `result["declarations"]`. -/
structure DeclMeta where
  type : String
  label : String
  date_depot : String
  uuid : String
  url : String
  declarant : Declarant
deriving DecidableEq

def declMetaOf (p : ParsedDecl) (xml_url : String) : DeclMeta :=
  { type := p.type_declaration
    label := p.type_declaration_label
    date_depot := p.date_depot
    uuid := p.uuid
    url := xml_url
    declarant := p.declarant }

/-- The consolidated result dict for one person.  `famille` is `none` while
still the initial empty dict `{}`. -/
structure EluResult where
  prenom : String
  nom : String
  scraped_at : String
  declarations_trouvees : ℕ
  instruments_financiers : List Instrument
  participations_financieres : List Participation
  biens_immobiliers : List BienImmobilier
  prets_bancaires : List Pret
  autres_biens : List AutreBien
  revenus_activites : List Revenu
  mandats_electifs : List Mandat
  fonctions_dirigeantes : List Fonction
  famille : Option Famille
  observations : List String
  declarations : List DeclMeta
deriving DecidableEq

/-- The family merge of the consolidation loop: first declaration installs
its whole famille dict; afterwards an incoming conjoint dict (truthy, i.e.
present, even with all fields empty) replaces the stored one wholesale, and
incoming enfants are appended.  A parsed famille dict always has its three
keys, hence is always truthy, so the outer `if parsed.get("famille")` of the
source is always taken. -/
def merge_famille (cur : Option Famille) (inc : Famille) : Option Famille :=
  match cur with
  | none => some inc
  | some f =>
    some
      { f with
        conjoint := if inc.conjoint.isSome then inc.conjoint else f.conjoint
        enfants := if inc.enfants ≠ [] then f.enfants ++ inc.enfants else f.enfants }

/-- Fold one successfully parsed declaration into the result dict. -/
def consolidate_parsed (acc : EluResult) (parsed : ParsedDecl) (xml_url : String) : EluResult :=
  { acc with
    instruments_financiers := acc.instruments_financiers ++ parsed.instruments_financiers
    participations_financieres := acc.participations_financieres ++ parsed.participations_financieres
    biens_immobiliers := acc.biens_immobiliers ++ parsed.biens_immobiliers
    prets_bancaires := acc.prets_bancaires ++ parsed.prets_bancaires
    autres_biens := acc.autres_biens ++ parsed.autres_biens
    revenus_activites := acc.revenus_activites ++ parsed.revenus_activites
    mandats_electifs := acc.mandats_electifs ++ parsed.mandats_electifs
    fonctions_dirigeantes := acc.fonctions_dirigeantes ++ parsed.fonctions_dirigeantes
    famille := merge_famille acc.famille parsed.famille
    observations :=
      if parsed.observations ≠ "" then acc.observations ++ [parsed.observations] else acc.observations
    declarations := acc.declarations ++ [declMetaOf parsed xml_url] }

/-- One iteration of the `for row, label in [(dsp_row, "DSP"), (di_row, "DI")]`
loop: a missing row, URL, download or parse leaves the result untouched
(`continue`). -/
def process_row (download : String → Option RawDoc) (acc : EluResult) : Option Row → EluResult
  | none => acc
  | some row =>
    match get_xml_url row with
    | none => acc
    | some xml_url =>
      match download xml_url with
      | none => acc
      | some raw =>
        match parse_declaration_xml raw xml_url with
        | none => acc
        | some parsed => consolidate_parsed acc parsed xml_url

/-- The freshly initialised result dict. -/
def init_result (now prenom nom : String) (found : ℕ) : EluResult :=
  { prenom := prenom
    nom := nom
    scraped_at := now ++ "Z"
    declarations_trouvees := found
    instruments_financiers := []
    participations_financieres := []
    biens_immobiliers := []
    prets_bancaires := []
    autres_biens := []
    revenus_activites := []
    mandats_electifs := []
    fonctions_dirigeantes := []
    famille := none
    observations := []
    declarations := [] }

/-- `fetch_hatvp_complete_for_elu`: match the index rows, keep the most
recent DSP-family and DI-family rows, parse them and consolidate. -/
def fetch_hatvp_complete_for_elu (download : String → Option RawDoc) (now : String)
    (prenom nom : String) (index : List Row) : Option EluResult :=
  let prenom := strip prenom
  let nom := strip nom
  if prenom = "" ∨ nom = "" then none
  else
    let declarations_rows := find_declarations_for_elu index prenom nom
    if declarations_rows.isEmpty then none
    else
      let dsp_row := declarations_rows.find? (fun r => DSP_TYPES.contains (get_declaration_type r))
      let di_row := declarations_rows.find? (fun r => DI_TYPES.contains (get_declaration_type r))
      let init := init_result now prenom nom declarations_rows.length
      some (process_row download (process_row download init dsp_row) di_row)

/-! ### The Aggregator (`build_resume_complet`) -/

/-- `x.get("valeur_euro", 0) or 0`: an absent (or zero) amount becomes 0. -/
def qOr0 (x : Option ℚ) : ℚ := x.getD 0

/-- Python `round(x, 2)` on the totals.  Mathlib `round` rounds half away
from zero upward while Python rounds half to even; the difference can only
show on exact half-cent totals, which no claim exercises. -/
def round2 (q : ℚ) : ℚ := (round (q * 100) : ℤ) / 100

structure Resume where
  nb_instruments_financiers : ℕ
  nb_participations_societes : ℕ
  nb_biens_immobiliers : ℕ
  nb_prets_bancaires : ℕ
  nb_autres_biens : ℕ
  nb_revenus_activites : ℕ
  nb_mandats_electifs : ℕ
  nb_fonctions_dirigeantes : ℕ
  patrimoine_brut_euro : ℚ
  patrimoine_net_euro : ℚ
  valeur_instruments_euro : ℚ
  valeur_participations_euro : ℚ
  valeur_immobilier_euro : ℚ
  valeur_autres_biens_euro : ℚ
  total_dettes_euro : ℚ
  revenus_annuels_euro : ℚ
  nb_declarations_hatvp : ℕ
  hatvp_scraped_at : String
  a_conjoint : Bool
  nb_enfants : ℕ
deriving DecidableEq

def build_resume_complet (data : EluResult) : Resume :=
  let instruments := data.instruments_financiers
  let participations := data.participations_financieres
  let immobilier := data.biens_immobiliers
  let prets := data.prets_bancaires
  let autres_biens := data.autres_biens
  let revenus := data.revenus_activites
  let valeur_instruments := (instruments.map (fun i => qOr0 i.valeur_euro)).sum
  let valeur_participations := (participations.map (fun p => qOr0 p.valeur_euro)).sum
  let valeur_immobilier := (immobilier.map (fun b => qOr0 b.valeur_euro)).sum
  let valeur_autres_biens := (autres_biens.map (fun b => qOr0 b.valeur_euro)).sum
  let total_dettes := (prets.map (fun p => qOr0 p.capital_restant_du_euro)).sum
  let revenus_annuels := (revenus.map (fun r => qOr0 r.montant_annuel_euro)).sum
  let patrimoine_brut := valeur_instruments + valeur_participations + valeur_immobilier + valeur_autres_biens
  let patrimoine_net := patrimoine_brut - total_dettes
  { nb_instruments_financiers := instruments.length
    nb_participations_societes := participations.length
    nb_biens_immobiliers := immobilier.length
    nb_prets_bancaires := prets.length
    nb_autres_biens := autres_biens.length
    nb_revenus_activites := revenus.length
    nb_mandats_electifs := data.mandats_electifs.length
    nb_fonctions_dirigeantes := data.fonctions_dirigeantes.length
    patrimoine_brut_euro := round2 patrimoine_brut
    patrimoine_net_euro := round2 patrimoine_net
    valeur_instruments_euro := round2 valeur_instruments
    valeur_participations_euro := round2 valeur_participations
    valeur_immobilier_euro := round2 valeur_immobilier
    valeur_autres_biens_euro := round2 valeur_autres_biens
    total_dettes_euro := round2 total_dettes
    revenus_annuels_euro := round2 revenus_annuels
    nb_declarations_hatvp := data.declarations_trouvees
    hatvp_scraped_at := data.scraped_at
    a_conjoint :=
      match data.famille with
      | some f => (match f.conjoint with | some c => c.nom != "" | none => false)
      | none => false
    nb_enfants :=
      match data.famille with
      | some f => f.enfants.length
      | none => 0 }

/-! ### Spec-side definitions for comparison

These two spell out the totals the way the specification words them (gross
assets as the sum of value amounts over the asset kinds; debt as the sum of
outstanding loan balances), to be compared with `build_resume_complet`. -/

def gross_sum (data : EluResult) : ℚ :=
  (data.instruments_financiers.map (fun i => qOr0 i.valeur_euro)).sum
    + (data.participations_financieres.map (fun p => qOr0 p.valeur_euro)).sum
    + (data.biens_immobiliers.map (fun b => qOr0 b.valeur_euro)).sum
    + (data.autres_biens.map (fun b => qOr0 b.valeur_euro)).sum

def debt_sum (data : EluResult) : ℚ :=
  (data.prets_bancaires.map (fun p => qOr0 p.capital_restant_du_euro)).sum

/-! ### Blank-record predicates (every semantically meaningful field empty) -/

def Instrument.isBlank (i : Instrument) : Prop :=
  i.nature = "" ∧ i.nature_code = "" ∧ i.description = "" ∧ i.valeur_euro = none ∧
    i.mode_detention = "" ∧ i.nombre_titres = "" ∧ i.valeur_unitaire_euro = none ∧
    i.isin = "" ∧ i.devise = "" ∧ i.date_acquisition = "" ∧ i.etablissement = "" ∧
    i.commentaire = ""

def Pret.isBlank (p : Pret) : Prop :=
  p.nature = "" ∧ p.etablissement = "" ∧ p.montant_emprunte_euro = none ∧
    p.capital_restant_du_euro = none ∧ p.date_souscription = "" ∧ p.duree_annees = "" ∧
    p.taux_interet = "" ∧ p.objet = "" ∧ p.commentaire = ""

def Participation.isBlank (p : Participation) : Prop :=
  p.nom_societe = "" ∧ p.forme_juridique = "" ∧ p.nb_parts = "" ∧ p.valeur_euro = none ∧
    p.pourcentage_detention = "" ∧ p.mode_detention = "" ∧ p.objet_social = "" ∧
    p.adresse = "" ∧ p.siren = "" ∧ p.date_acquisition = "" ∧ p.commentaire = ""

def BienImmobilier.isBlank (b : BienImmobilier) : Prop :=
  b.nature = "" ∧ b.nature_code = "" ∧ b.adresse = "" ∧ b.surface_m2 = "" ∧
    b.valeur_euro = none ∧ b.mode_detention = "" ∧ b.date_acquisition = "" ∧
    b.mode_acquisition = "" ∧ b.usage = "" ∧ b.commentaire = ""

def AutreBien.isBlank (b : AutreBien) : Prop :=
  b.nature = "" ∧ b.description = "" ∧ b.valeur_euro = none ∧ b.date_acquisition = "" ∧
    b.commentaire = ""

/-- Blank income entry; the constant `typ` tag is not a resolved field. -/
def Revenu.isBlank (r : Revenu) : Prop :=
  r.nature = "" ∧ r.employeur = "" ∧ r.fonction = "" ∧ r.activite = "" ∧
    r.secteur_activite = "" ∧ r.montant_annuel_euro = none ∧ r.date_debut = "" ∧
    r.date_fin = "" ∧ r.commentaire = ""

/-- Blank mandate; `en_cours = false` is what an absent flag resolves to. -/
def Mandat.isBlank (m : Mandat) : Prop :=
  m.nature = "" ∧ m.fonction = "" ∧ m.collectivite = "" ∧ m.circonscription = "" ∧
    m.date_debut = "" ∧ m.date_fin = "" ∧ m.en_cours = false ∧ m.commentaire = ""

def Fonction.isBlank (f : Fonction) : Prop :=
  f.fonction = "" ∧ f.organisme = "" ∧ f.nature_organisme = "" ∧ f.secteur_activite = "" ∧
    f.remuneree = false ∧ f.montant_annuel_euro = none ∧ f.date_debut = "" ∧
    f.date_fin = "" ∧ f.en_cours = false ∧ f.commentaire = ""

def Enfant.isBlank (e : Enfant) : Prop :=
  e.date_naissance = "" ∧ e.a_charge = false

/-- Drop the wall-clock field, for comparing two runs of the consolidation. -/
def erase_timestamp (r : EluResult) : EluResult := { r with scraped_at := "" }

/-! ### Concrete inputs used by witnesses and counterexamples -/

def exRowA1 : Row :=
  [("nom", "Durand"), ("prenom", "Marie"), ("dateDepot", "10/01/2020"), ("typeDeclaration", "DSP"), ("fichier", "d1")]

def exRowA2 : Row :=
  [("nom", "Durand"), ("prenom", "Marie"), ("dateDepot", "15/06/2021"), ("typeDeclaration", "DSPM"), ("fichier", "d2")]

def exRowA3 : Row :=
  [("nom", "Durand"), ("prenom", "Marie"), ("dateDepot", "03/03/2022"), ("typeDeclaration", "DSP"), ("fichier", "d3")]

def exUrlA : String := "https://www.hatvp.fr/livraison/dossiers/d3.xml"

def exXmlA : Xml :=
  el "declaration"
    [el "general" [el "typeDeclaration" [elT "id" "DSP", elT "label" "dsp"]],
     elT "dateDepot" "03/03/2022", elT "uuid" "uuid-3",
     el "biensImmobiliersDto"
       [el "items" [el "items" [elT "adresse" "12 rue X", elT "valeur" "250000"]]]]

def dlA : String → Option RawDoc := fun _ => some (.wellFormed exXmlA)

def exFamA : Famille :=
  { situation_familiale := "marie"
    conjoint := some { nom := "Martin", prenom := "Claire", profession := "avocate", employeur := "", secteur_activite := "" }
    enfants := [] }

/-- A declaration tree whose `<conjoint>` element is present but carries no
published field at all. -/
def exXmlConj : Xml := el "declaration" [el "conjoint" []]

/-- An incoming famille dict with no conjoint block, for the block-level rule. -/
def exFamNoConj : Famille :=
  { situation_familiale := ""
    conjoint := none
    enfants := [{ date_naissance := "2010", a_charge := true }] }

def exRowT1 : Row :=
  [("nom", "Petit"), ("prenom", "Luc"), ("dateDepot", "03/04/2021"), ("typeDeclaration", "DSP"), ("fichier", "t1")]

def exRowT2 : Row :=
  [("nom", "Petit"), ("prenom", "Luc"), ("dateDepot", "03/04/2021"), ("typeDeclaration", "DSPM"), ("fichier", "t2")]

def exRowD : Row :=
  [("nom", "Moreau"), ("prenom", "Paul"), ("dateDepot", "01/02/2021"), ("typeDeclaration", "DSP"), ("fichier", "bad")]

def exRowI : Row :=
  [("nom", "Moreau"), ("prenom", "Paul"), ("dateDepot", "05/02/2021"), ("typeDeclaration", "DI"), ("fichier", "good")]

def exUrlD : String := "https://www.hatvp.fr/livraison/dossiers/bad.xml"

def exUrlI : String := "https://www.hatvp.fr/livraison/dossiers/good.xml"

def exXmlI : Xml :=
  el "declaration"
    [el "general" [el "typeDeclaration" [elT "id" "DI"]],
     elT "dateDepot" "05/02/2021", elT "uuid" "uuid-i",
     el "mandatsElectifsDto" [el "items" [el "items" [elT "fonction" "depute"]]]]

def dlC6 : String → Option RawDoc := fun u =>
  if u = exUrlD then some .malformed else some (.wellFormed exXmlI)

def exBien300k : BienImmobilier :=
  { nature := "Maison"
    nature_code := ""
    adresse := ""
    surface_m2 := ""
    valeur_euro := some 300000
    mode_detention := ""
    date_acquisition := ""
    mode_acquisition := ""
    usage := ""
    commentaire := "" }

def exPret100k : Pret :=
  { nature := ""
    etablissement := ""
    montant_emprunte_euro := none
    capital_restant_du_euro := some 100000
    date_souscription := ""
    duree_annees := ""
    taux_interet := ""
    objet := ""
    commentaire := "" }

def exAggData : EluResult :=
  { prenom := "Jean"
    nom := "Dupont"
    scraped_at := ""
    declarations_trouvees := 1
    instruments_financiers := []
    participations_financieres := []
    biens_immobiliers := [exBien300k]
    prets_bancaires := [exPret100k]
    autres_biens := []
    revenus_activites := []
    mandats_electifs := []
    fonctions_dirigeantes := []
    famille := none
    observations := []
    declarations := [] }

/-- An instrument disclosed without a value, for the counts-versus-sums rule. -/
def exInstAbsent : Instrument :=
  { nature := "Fonds"
    nature_code := ""
    description := ""
    valeur_euro := none
    mode_detention := ""
    nombre_titres := ""
    valeur_unitaire_euro := none
    isin := ""
    devise := ""
    date_acquisition := ""
    etablissement := ""
    commentaire := "" }

def exRootInstr : Xml :=
  el "declaration"
    [el "instrumentsFinanciersDto"
      [el "items" [el "items" [elT "description" "Actions X"]]]]

def exInstEmitted : Instrument :=
  { nature := ""
    nature_code := ""
    description := "Actions X"
    valeur_euro := none
    mode_detention := ""
    nombre_titres := ""
    valeur_unitaire_euro := none
    isin := ""
    devise := ""
    date_acquisition := ""
    etablissement := ""
    commentaire := "" }

def exRootPret : Xml :=
  el "declaration"
    [el "pretsBancairesDto"
      [el "items" [el "items" [elT "montant" "1000"]]]]

def exPretEmitted : Pret :=
  { nature := ""
    etablissement := ""
    montant_emprunte_euro := some 1000
    capital_restant_du_euro := none
    date_souscription := ""
    duree_annees := ""
    taux_interet := ""
    objet := ""
    commentaire := "" }

/-- The mandate emitted from `exXmlI`, for the C8 witness. -/
def exMandatEmitted : Mandat :=
  { nature := ""
    fonction := "depute"
    collectivite := ""
    circonscription := ""
    date_debut := ""
    date_fin := ""
    en_cours := false
    commentaire := "" }

def exRowC9 : Row :=
  [("nom", "Dupont"), ("prenom", "Jean"), ("dateDepot", "05/06/2021"), ("typeDeclaration", "DSP"), ("fichier", "doc9")]

def exXmlC9 : Xml :=
  el "declaration"
    [el "general" [el "typeDeclaration" [elT "id" "DSP"]],
     elT "dateDepot" "05/06/2021", elT "uuid" "u-9"]

def dlC9 : String → Option RawDoc := fun _ => some (.wellFormed exXmlC9)

/-- A document whose field value is published redacted. -/
def exXmlRedact : Xml := el "declarations" [elT "nom" " [Données non publiées] "]

/-! ### Supporting lemmas on the date-descending sort and selection -/

theorem mem_insertByDateDesc {x a : Row} {l : List Row} :
    x ∈ insertByDateDesc a l ↔ x = a ∨ x ∈ l := by
  induction l with
  | nil => simp [insertByDateDesc]
  | cons b t ih =>
    by_cases h : parse_date b ≤ parse_date a
    · simp [insertByDateDesc, h]
    · simp only [insertByDateDesc, if_neg h, List.mem_cons, ih]
      tauto

theorem pairwise_insertByDateDesc (a : Row) {l : List Row}
    (h : l.Pairwise (fun u v => parse_date v ≤ parse_date u)) :
    (insertByDateDesc a l).Pairwise (fun u v => parse_date v ≤ parse_date u) := by
  induction l with
  | nil => simp [insertByDateDesc]
  | cons b t ih =>
    rcases List.pairwise_cons.mp h with ⟨hb, ht⟩
    by_cases hc : parse_date b ≤ parse_date a
    · rw [insertByDateDesc, if_pos hc]
      refine List.pairwise_cons.mpr ⟨?_, h⟩
      intro y hy
      rcases List.mem_cons.mp hy with rfl | hyt
      · exact hc
      · exact le_trans (hb y hyt) hc
    · rw [insertByDateDesc, if_neg hc]
      refine List.pairwise_cons.mpr ⟨?_, ih ht⟩
      intro y hy
      rcases mem_insertByDateDesc.mp hy with rfl | hyt
      · exact le_of_lt (lt_of_not_le hc)
      · exact hb y hyt

theorem pairwise_sortByDateDesc (l : List Row) :
    (sortByDateDesc l).Pairwise (fun u v => parse_date v ≤ parse_date u) := by
  induction l with
  | nil => simp [sortByDateDesc]
  | cons a t ih => exact pairwise_insertByDateDesc a ih

theorem mem_sortByDateDesc {x : Row} {l : List Row} :
    x ∈ sortByDateDesc l ↔ x ∈ l := by
  induction l with
  | nil => simp [sortByDateDesc]
  | cons a t ih => simp [sortByDateDesc, mem_insertByDateDesc, ih]

/-- On a date-descending list, `find?` returns a hit whose date is maximal
among all hits. -/
theorem find_max_of_sorted {p : Row → Bool} :
    ∀ {l : List Row} {r0 : Row},
      l.Pairwise (fun u v => parse_date v ≤ parse_date u) → l.find? p = some r0 →
      p r0 = true ∧ ∀ r ∈ l, p r = true → parse_date r ≤ parse_date r0 := by
  intro l
  induction l with
  | nil => intro r0 _ hf; cases hf
  | cons a t ih =>
    intro r0 hp hf
    rcases List.pairwise_cons.mp hp with ⟨ha, ht⟩
    by_cases hpa : p a
    · rw [List.find?_cons_of_pos _ hpa] at hf
      cases hf
      refine ⟨hpa, ?_⟩
      intro r hr _
      rcases List.mem_cons.mp hr with rfl | hrt
      · exact le_refl _
      · exact ha r hrt
    · rw [List.find?_cons_of_neg _ hpa] at hf
      rcases ih ht hf with ⟨h1, h2⟩
      refine ⟨h1, ?_⟩
      intro r hr hpr
      rcases List.mem_cons.mp hr with rfl | hrt
      · exact absurd hpr hpa
      · exact h2 r hrt hpr

/-- The two-element case of the sort, written out. -/
theorem sortByDateDesc_pair (a b : Row) :
    sortByDateDesc [a, b] =
      if parse_date b ≤ parse_date a then [a, b] else [b, a] := by
  by_cases h : parse_date b ≤ parse_date a <;>
    simp [sortByDateDesc, insertByDateDesc, h]

/-- The DSP family and the DI family of declaration types are disjoint. -/
theorem dsp_not_di {t : String} (h : DSP_TYPES.contains t = true) :
    DI_TYPES.contains t = false := by
  simp only [DSP_TYPES, List.contains_cons, List.contains_nil, Bool.or_false,
    Bool.or_eq_true, beq_iff_eq] at h
  rcases h with rfl | rfl <;> decide

theorem di_not_dsp {t : String} (h : DI_TYPES.contains t = true) :
    DSP_TYPES.contains t = false := by
  simp only [DI_TYPES, List.contains_cons, List.contains_nil, Bool.or_false,
    Bool.or_eq_true, beq_iff_eq] at h
  rcases h with rfl | rfl <;> decide

/-- `erase_timestamp` commutes with processing one row: nothing in the
consolidation loop reads or writes the timestamp. -/
theorem erase_timestamp_process_row (download : String → Option RawDoc)
    (acc : EluResult) (orow : Option Row) :
    erase_timestamp (process_row download acc orow) =
      process_row download (erase_timestamp acc) orow := by
  cases orow with
  | none => rfl
  | some row =>
    cases hu : get_xml_url row with
    | none => simp [process_row, hu]
    | some xml_url =>
      cases hd : download xml_url with
      | none => simp [process_row, hu, hd]
      | some raw =>
        cases hp2 : parse_declaration_xml raw xml_url with
        | none => simp [process_row, hu, hd, hp2]
        | some parsed =>
          simp [process_row, hu, hd, hp2, consolidate_parsed, erase_timestamp]

/-! ### Claim C3 -/

/-- C3 counterexample: the claim says a text parsing to exactly zero yields
"absent"; in the code `parse_montant("0")` yields the value `0.0`, not
`None`. -/
theorem parse_montant_zero_not_absent_cex : parse_montant "0" ≠ none := by
  intro h
  exact Option.noConfusion h

/-- C3 (amended): the Amount Normalizer parses `"0"` (and `"0,00"`) to the
value `0.0`; it never maps a parsed zero to "absent".  Only empty or
unparseable text yields "absent". -/
theorem parse_montant_zero_yields_zero :
    parse_montant "0" = some 0 ∧ parse_montant "0,00" = some 0 ∧ parse_montant "" = none := by
  refine ⟨rfl, ?_, rfl⟩
  have h : parse_montant "0,00" = some ((0 : ℚ) + 0 / 10 ^ 2) := rfl
  rw [h]
  norm_num

/-! ### Claim C4 -/

/-- C4 counterexample: the claim says `normalize("12 500,00 €")` yields
`12500.0`; the code never strips the currency symbol, so `float` fails and
the result is "absent". -/
theorem parse_montant_currency_cex : parse_montant "12 500,00 €" ≠ some 12500 := by
  intro h
  exact Option.noConfusion h

/-- C4 (amended): the Amount Normalizer strips ordinary and no-break spaces
and maps the comma to a decimal dot, but does not strip currency symbols or
accept a dot-decimal with comma grouping: `"12 500,00 €"` and `"1,157.30"`
both normalize to "absent", while `"1 157,30"` yields `1157.30` and
`"12 500,00"` yields `12500.0`. -/
theorem parse_montant_separator_behavior :
    parse_montant "12 500,00 €" = none ∧
    parse_montant "1,157.30" = none ∧
    parse_montant "1 157,30" = some (11573 / 10) ∧
    parse_montant "12 500,00" = some 12500 := by
  refine ⟨rfl, rfl, ?_, ?_⟩
  · have h : parse_montant "1 157,30" = some ((1157 : ℚ) + 30 / 10 ^ 2) := rfl
    rw [h]
    norm_num
  · have h : parse_montant "12 500,00" = some ((12500 : ℚ) + 0 / 10 ^ 2) := rfl
    rw [h]
    norm_num

/-! ### Claim C10 -/

/-- C10: a node whose stripped text equals the redaction marker
`"[Données non publiées]"` is treated exactly like a missing field: the
resolver returns the supplied default. -/
theorem redaction_marker_treated_as_missing
    (x : Xml) (p : XPath) (dflt : String) (n : Xml) (s : String)
    (hfind : x.findFirst p = some n) (htext : n.text = some s)
    (hred : strip s = "[Données non publiées]") :
    xml_text (some x) p dflt = dflt := by
  by_cases hs : s = ""
  · simp [xml_text, hfind, htext, hs]
  · simp [xml_text, hfind, htext, hs, hred]

/-- C10 witness at a concrete redacted document. -/
theorem redaction_marker_treated_as_missing_witness :
    xml_text (some exXmlRedact) (XPath.rel ["nom"]) "" = "" :=
  redaction_marker_treated_as_missing exXmlRedact (XPath.rel ["nom"]) ""
    (elT "nom" " [Données non publiées] ") " [Données non publiées] "
    rfl rfl (by decide)

/-! ### Claim C9 -/

/-- C9 counterexample: the consolidated profile embeds the wall-clock
timestamp (`scraped_at`), so re-running the consolidation with identical
inputs at a different time yields a different profile. -/
theorem profile_differs_across_runs_cex :
    fetch_hatvp_complete_for_elu dlC9 "2024-01-01T00:00:00" "Jean" "Dupont" [exRowC9] ≠
      fetch_hatvp_complete_for_elu dlC9 "2025-01-01T00:00:00" "Jean" "Dupont" [exRowC9] := by
  decide

/-- C9 (amended): parsing and consolidation are deterministic apart from the
wall-clock field: two runs over the same inputs agree on every field of the
profile except `scraped_at`. -/
theorem fetch_deterministic_modulo_timestamp
    (download : String → Option RawDoc) (t1 t2 prenom nom : String) (index : List Row) :
    (fetch_hatvp_complete_for_elu download t1 prenom nom index).map erase_timestamp =
      (fetch_hatvp_complete_for_elu download t2 prenom nom index).map erase_timestamp := by
  simp only [fetch_hatvp_complete_for_elu]
  by_cases h1 : strip prenom = "" ∨ strip nom = ""
  · simp [h1]
  · by_cases h2 : (find_declarations_for_elu index (strip prenom) (strip nom)).isEmpty
    · simp [h1, h2]
    · rw [if_neg h1, if_neg h2, if_neg h1, if_neg h2]
      dsimp only [Option.map]
      simp only [erase_timestamp_process_row]
      have h3 : erase_timestamp (init_result t1 (strip prenom) (strip nom)
            (find_declarations_for_elu index (strip prenom) (strip nom)).length) =
          erase_timestamp (init_result t2 (strip prenom) (strip nom)
            (find_declarations_for_elu index (strip prenom) (strip nom)).length) := rfl
      rw [h3]

/-! ### Claim C2 -/

/-- C2 counterexample: a stored conjoint with non-empty name `"Martin"` is
replaced wholesale by an incoming conjoint block whose every field is empty
(the `<conjoint>` element is present but carries no published value), so the
previously set non-empty field is lost. -/
theorem famille_merge_overwrites_nonempty_cex :
    exFamA.conjoint.map Conjoint.nom = some "Martin" ∧
    (parse_informations_familiales exXmlConj).conjoint.map Conjoint.nom = some "" ∧
    ((merge_famille (some exFamA) (parse_informations_familiales exXmlConj)).bind
        Famille.conjoint).map Conjoint.nom = some "" := by
  refine ⟨rfl, by decide, by decide⟩

/-- C2 (amended): the family merge is non-destructive only at block
granularity: when the incoming declaration has no conjoint block the stored
conjoint and situation are kept and children are only appended; but a
present incoming conjoint block replaces the stored one wholesale, even if
its individual fields are empty. -/
theorem famille_merge_block_level_monotone (f inc : Famille) :
    ∃ g, merge_famille (some f) inc = some g ∧
      g.situation_familiale = f.situation_familiale ∧
      (∃ suffix, g.enfants = f.enfants ++ suffix) ∧
      (inc.conjoint = none → g.conjoint = f.conjoint) ∧
      (∀ c, inc.conjoint = some c → g.conjoint = some c) := by
  refine ⟨_, rfl, rfl, ?_, ?_, ?_⟩
  · by_cases he : inc.enfants = []
    · exact ⟨[], by simp [he]⟩
    · exact ⟨inc.enfants, by simp [he]⟩
  · intro hnone
    simp [hnone]
  · intro c hc
    simp [hc]

/-- C2 witness: with no incoming conjoint block, the stored block survives. -/
theorem famille_merge_block_level_monotone_witness :
    ∃ g, merge_famille (some exFamA) exFamNoConj = some g ∧ g.conjoint = exFamA.conjoint := by
  obtain ⟨g, hg, _, _, hnone, _⟩ := famille_merge_block_level_monotone exFamA exFamNoConj
  exact ⟨g, hg, hnone rfl⟩

/-! ### Claim C7 -/

/-- C7: the Aggregator computes gross assets as the sum of value amounts
over the asset kinds, debt as the sum of outstanding loan balances, and net
worth as gross minus debt; an absent amount contributes zero to the sums but
the record still counts; and on one RealEstate record of 300000 and one Loan
with outstanding 100000 the gross is 300000.0 and the net 200000.0. -/
theorem aggregator_sums_and_counts :
    (∀ data : EluResult,
        (build_resume_complet data).patrimoine_brut_euro = round2 (gross_sum data) ∧
        (build_resume_complet data).total_dettes_euro = round2 (debt_sum data) ∧
        (build_resume_complet data).patrimoine_net_euro = round2 (gross_sum data - debt_sum data) ∧
        (build_resume_complet data).nb_prets_bancaires = data.prets_bancaires.length) ∧
    (∀ (data : EluResult) (i : Instrument), i.valeur_euro = none →
        (build_resume_complet
            { data with instruments_financiers := data.instruments_financiers ++ [i] }).patrimoine_brut_euro =
          (build_resume_complet data).patrimoine_brut_euro ∧
        (build_resume_complet
            { data with instruments_financiers := data.instruments_financiers ++ [i] }).nb_instruments_financiers =
          (build_resume_complet data).nb_instruments_financiers + 1) ∧
    ((build_resume_complet exAggData).patrimoine_brut_euro = 300000 ∧
      (build_resume_complet exAggData).patrimoine_net_euro = 200000 ∧
      (build_resume_complet exAggData).total_dettes_euro = 100000 ∧
      (build_resume_complet exAggData).nb_biens_immobiliers = 1 ∧
      (build_resume_complet exAggData).nb_prets_bancaires = 1) := by
  refine ⟨fun data => ⟨rfl, rfl, rfl, rfl⟩, ?_, ?_, ?_, ?_, rfl, rfl⟩
  · intro data i hi
    constructor
    · simp [build_resume_complet, round2, List.map_append, List.sum_append, hi, qOr0]
    · simp [build_resume_complet]
  · have h : (build_resume_complet exAggData).patrimoine_brut_euro =
        round2 (0 + 0 + ((300000 : ℚ) + 0) + 0) := rfl
    rw [h, round2, round_eq]
    norm_num
  · have h : (build_resume_complet exAggData).patrimoine_net_euro =
        round2 ((0 + 0 + ((300000 : ℚ) + 0) + 0) - ((100000 : ℚ) + 0)) := rfl
    rw [h, round2, round_eq]
    norm_num
  · have h : (build_resume_complet exAggData).total_dettes_euro =
        round2 ((100000 : ℚ) + 0) := rfl
    rw [h, round2, round_eq]
    norm_num

/-- C7 witness: appending an instrument with absent value leaves the sums
unchanged and increments the count. -/
theorem aggregator_sums_and_counts_witness :
    (build_resume_complet
        { exAggData with
          instruments_financiers := exAggData.instruments_financiers ++ [exInstAbsent] }).patrimoine_brut_euro =
      (build_resume_complet exAggData).patrimoine_brut_euro ∧
    (build_resume_complet
        { exAggData with
          instruments_financiers := exAggData.instruments_financiers ++ [exInstAbsent] }).nb_instruments_financiers =
      (build_resume_complet exAggData).nb_instruments_financiers + 1 :=
  aggregator_sums_and_counts.2.1 exAggData exInstAbsent rfl

/-! ### Claim C8 -/

/-- C8: no section extractor ever emits a record whose every semantically
meaningful field is empty or absent: each extractor's discard test forces at
least one inspected field of every emitted record to be non-empty, so no
all-blank instrument, participation, real-estate asset, loan, other asset,
income entry, mandate, leadership function or child record appears in any
output. -/
theorem extractors_never_emit_blank_records :
    (∀ (root : Xml) (r : Instrument), r ∈ parse_instruments_financiers root → ¬ r.isBlank) ∧
    (∀ (root : Xml) (r : Participation), r ∈ parse_participation_financiere root → ¬ r.isBlank) ∧
    (∀ (root : Xml) (r : BienImmobilier), r ∈ parse_biens_immobiliers root → ¬ r.isBlank) ∧
    (∀ (root : Xml) (r : Pret), r ∈ parse_prets_bancaires root → ¬ r.isBlank) ∧
    (∀ (root : Xml) (r : AutreBien), r ∈ parse_autres_biens root → ¬ r.isBlank) ∧
    (∀ (root : Xml) (r : Revenu), r ∈ parse_revenus_activites root → ¬ r.isBlank) ∧
    (∀ (root : Xml) (r : Mandat), r ∈ parse_mandats_electifs root → ¬ r.isBlank) ∧
    (∀ (root : Xml) (r : Fonction), r ∈ parse_fonctions_dirigeantes root → ¬ r.isBlank) ∧
    (∀ (root : Xml) (r : Enfant), r ∈ (parse_informations_familiales root).enfants → ¬ r.isBlank) := by
  refine ⟨?_, ?_, ?_, ?_, ?_, ?_, ?_, ?_, ?_⟩
  · intro root r hmem hblank
    simp only [parse_instruments_financiers] at hmem
    split at hmem
    · exact absurd hmem (List.not_mem_nil r)
    · split at hmem
      · exact absurd hmem (List.not_mem_nil r)
      · rcases List.mem_filterMap.mp hmem with ⟨item, -, hf⟩
        split at hf
        · exact Option.noConfusion hf
        · split at hf
          · exact Option.noConfusion hf
          · rename_i hcond
            cases hf
            unfold Instrument.isBlank at hblank
            obtain ⟨h1, -, h3, h4, -⟩ := hblank
            exact hcond ⟨h1, h3, h4⟩
  · intro root r hmem hblank
    simp only [parse_participation_financiere] at hmem
    split at hmem
    · exact absurd hmem (List.not_mem_nil r)
    · split at hmem
      · exact absurd hmem (List.not_mem_nil r)
      · rcases List.mem_filterMap.mp hmem with ⟨item, -, hf⟩
        split at hf
        · exact Option.noConfusion hf
        · split at hf
          · exact Option.noConfusion hf
          · rename_i hcond
            cases hf
            unfold Participation.isBlank at hblank
            obtain ⟨h1, -, -, h4, -⟩ := hblank
            exact hcond ⟨h1, h4⟩
  · intro root r hmem hblank
    simp only [parse_biens_immobiliers] at hmem
    split at hmem
    · exact absurd hmem (List.not_mem_nil r)
    · split at hmem
      · exact absurd hmem (List.not_mem_nil r)
      · rcases List.mem_filterMap.mp hmem with ⟨item, -, hf⟩
        split at hf
        · exact Option.noConfusion hf
        · split at hf
          · exact Option.noConfusion hf
          · rename_i hcond
            cases hf
            unfold BienImmobilier.isBlank at hblank
            obtain ⟨h1, -, h3, -, h5, -⟩ := hblank
            exact hcond ⟨h1, h3, h5⟩
  · intro root r hmem hblank
    simp only [parse_prets_bancaires] at hmem
    split at hmem
    · exact absurd hmem (List.not_mem_nil r)
    · split at hmem
      · exact absurd hmem (List.not_mem_nil r)
      · rcases List.mem_filterMap.mp hmem with ⟨item, -, hf⟩
        split at hf
        · exact Option.noConfusion hf
        · split at hf
          · exact Option.noConfusion hf
          · rename_i hcond
            cases hf
            unfold Pret.isBlank at hblank
            obtain ⟨-, -, h3, h4, -⟩ := hblank
            exact hcond ⟨h3, h4⟩
  · intro root r hmem hblank
    simp only [parse_autres_biens] at hmem
    split at hmem
    · exact absurd hmem (List.not_mem_nil r)
    · split at hmem
      · exact absurd hmem (List.not_mem_nil r)
      · rcases List.mem_filterMap.mp hmem with ⟨item, -, hf⟩
        split at hf
        · exact Option.noConfusion hf
        · split at hf
          · exact Option.noConfusion hf
          · rename_i hcond
            cases hf
            unfold AutreBien.isBlank at hblank
            obtain ⟨h1, h2, h3, -⟩ := hblank
            exact hcond ⟨h1, h2, h3⟩
  · intro root r hmem hblank
    simp only [parse_revenus_activites] at hmem
    rcases List.mem_append.mp hmem with hm | hm
    · split at hm
      · exact absurd hm (List.not_mem_nil r)
      · split at hm
        · exact absurd hm (List.not_mem_nil r)
        · rcases List.mem_filterMap.mp hm with ⟨item, -, hf⟩
          split at hf
          · exact Option.noConfusion hf
          · split at hf
            · exact Option.noConfusion hf
            · rename_i hcond
              cases hf
              unfold Revenu.isBlank at hblank
              obtain ⟨h1, -, -, -, -, h6, -⟩ := hblank
              exact hcond ⟨h1, h6⟩
    · split at hm
      · exact absurd hm (List.not_mem_nil r)
      · split at hm
        · exact absurd hm (List.not_mem_nil r)
        · rcases List.mem_filterMap.mp hm with ⟨item, -, hf⟩
          split at hf
          · exact Option.noConfusion hf
          · split at hf
            · exact Option.noConfusion hf
            · rename_i hcond
              cases hf
              unfold Revenu.isBlank at hblank
              obtain ⟨-, h2, h3, -⟩ := hblank
              exact hcond ⟨h2, h3⟩
  · intro root r hmem hblank
    simp only [parse_mandats_electifs] at hmem
    split at hmem
    · exact absurd hmem (List.not_mem_nil r)
    · split at hmem
      · exact absurd hmem (List.not_mem_nil r)
      · rcases List.mem_filterMap.mp hmem with ⟨item, -, hf⟩
        split at hf
        · exact Option.noConfusion hf
        · split at hf
          · exact Option.noConfusion hf
          · rename_i hcond
            cases hf
            unfold Mandat.isBlank at hblank
            obtain ⟨h1, h2, -⟩ := hblank
            exact hcond ⟨h1, h2⟩
  · intro root r hmem hblank
    simp only [parse_fonctions_dirigeantes] at hmem
    rcases List.mem_flatten.mp hmem with ⟨l, hl, hrl⟩
    rcases List.mem_map.mp hl with ⟨name, -, rfl⟩
    simp only [parse_fonctions_section] at hrl
    split at hrl
    · exact absurd hrl (List.not_mem_nil r)
    · split at hrl
      · exact absurd hrl (List.not_mem_nil r)
      · rcases List.mem_filterMap.mp hrl with ⟨item, -, hf⟩
        split at hf
        · exact Option.noConfusion hf
        · split at hf
          · exact Option.noConfusion hf
          · rename_i hcond
            cases hf
            unfold Fonction.isBlank at hblank
            obtain ⟨h1, h2, -⟩ := hblank
            exact hcond ⟨h1, h2⟩
  · intro root r hmem hblank
    simp only [parse_informations_familiales] at hmem
    split at hmem
    · exact absurd hmem (List.not_mem_nil r)
    · split at hmem
      · exact absurd hmem (List.not_mem_nil r)
      · rcases List.mem_filterMap.mp hmem with ⟨item, -, hf⟩
        split at hf
        · exact Option.noConfusion hf
        · split at hf
          · rename_i hcond
            cases hf
            unfold Enfant.isBlank at hblank
            obtain ⟨h1, -⟩ := hblank
            simp only [bne_iff_ne, ne_eq] at hcond
            exact hcond h1
          · exact Option.noConfusion hf

/-- C8 witness: concretely emitted records of three kinds are not blank. -/
theorem extractors_never_emit_blank_records_witness :
    (exInstEmitted ∈ parse_instruments_financiers exRootInstr ∧ ¬ exInstEmitted.isBlank) ∧
    (exPretEmitted ∈ parse_prets_bancaires exRootPret ∧ ¬ exPretEmitted.isBlank) ∧
    (exMandatEmitted ∈ parse_mandats_electifs exXmlI ∧ ¬ exMandatEmitted.isBlank) :=
  ⟨⟨by decide, extractors_never_emit_blank_records.1 exRootInstr exInstEmitted (by decide)⟩,
    ⟨by decide, extractors_never_emit_blank_records.2.2.2.1 exRootPret exPretEmitted (by decide)⟩,
    ⟨by decide, extractors_never_emit_blank_records.2.2.2.2.2.2.1 exXmlI exMandatEmitted (by decide)⟩⟩

/-! ### Claim C5 -/

/-- C5 counterexample: two patrimony rows for one person share a filing
date; the claim says the later-encountered one is retained, but the
selection keeps the earlier-encountered row (the sort is stable and the
first type match of the descending list wins). -/
theorem selector_tie_prefers_earlier_cex :
    (find_declarations_for_elu [exRowT1, exRowT2] "Luc" "Petit").find?
        (fun r => DSP_TYPES.contains (get_declaration_type r)) = some exRowT1 ∧
      exRowT1 ≠ exRowT2 := by
  constructor <;> decide

/-- C5 (amended): on equal filing dates the Declaration Selector retains the
earlier-encountered declaration of the category group: the stable descending
sort keeps equal-date rows in document order and the selector takes the
first type match. -/
theorem selector_tie_retains_earlier (rA rB : Row) (prenom nom : String)
    (hA : matches_elu (normalize_name prenom) (normalize_name nom) rA = true)
    (hB : matches_elu (normalize_name prenom) (normalize_name nom) rB = true)
    (htA : DSP_TYPES.contains (get_declaration_type rA) = true)
    (hdate : parse_date rA = parse_date rB) :
    (find_declarations_for_elu [rA, rB] prenom nom).find?
      (fun r => DSP_TYPES.contains (get_declaration_type r)) = some rA := by
  unfold find_declarations_for_elu
  have hfilter : List.filter (matches_elu (normalize_name prenom) (normalize_name nom)) [rA, rB]
      = [rA, rB] := by
    simp [List.filter, hA, hB]
  rw [hfilter, sortByDateDesc_pair, if_pos (le_of_eq hdate.symm)]
  exact List.find?_cons_of_pos _ htA

/-- C5 witness at concrete tied rows. -/
theorem selector_tie_retains_earlier_witness :
    (find_declarations_for_elu [exRowT1, exRowT2] "Luc" "Petit").find?
      (fun r => DSP_TYPES.contains (get_declaration_type r)) = some exRowT1 :=
  selector_tie_retains_earlier exRowT1 exRowT2 "Luc" "Petit"
    (by decide) (by decide) (by decide) (by decide)

/-! ### Claim C6 -/

/-- C6: a document whose bytes are not well-formed markup yields a parse
failure rather than an exception, and the failure is local: in a pool with a
malformed patrimony document and a well-formed interests document, the
malformed one is skipped, the other is still parsed and consolidated, and
the batch result contains exactly the well-formed declaration. -/
theorem malformed_document_skipped_batch_continues :
    (∀ url, parse_declaration_xml .malformed url = none) ∧
    (∀ (download : String → Option RawDoc) (now prenom nom : String) (rD rI : Row)
        (uD uI : String) (xI : Xml),
        strip prenom ≠ "" → strip nom ≠ "" →
        matches_elu (normalize_name (strip prenom)) (normalize_name (strip nom)) rD = true →
        matches_elu (normalize_name (strip prenom)) (normalize_name (strip nom)) rI = true →
        DSP_TYPES.contains (get_declaration_type rD) = true →
        DI_TYPES.contains (get_declaration_type rI) = true →
        get_xml_url rD = some uD → get_xml_url rI = some uI →
        download uD = some .malformed → download uI = some (.wellFormed xI) →
        ∃ res, fetch_hatvp_complete_for_elu download now prenom nom [rD, rI] = some res ∧
          res.declarations = [declMetaOf (parse_xml_root xI uI) uI] ∧
          res.instruments_financiers = (parse_xml_root xI uI).instruments_financiers ∧
          res.biens_immobiliers = (parse_xml_root xI uI).biens_immobiliers ∧
          res.prets_bancaires = (parse_xml_root xI uI).prets_bancaires ∧
          res.mandats_electifs = (parse_xml_root xI uI).mandats_electifs ∧
          res.fonctions_dirigeantes = (parse_xml_root xI uI).fonctions_dirigeantes ∧
          res.famille = some (parse_xml_root xI uI).famille) := by
  constructor
  · intro url
    rfl
  · intro download now prenom nom rD rI uD uI xI hp hn hmD hmI htD htI huD huI hdD hdI
    have hfilter : List.filter
        (matches_elu (normalize_name (strip prenom)) (normalize_name (strip nom))) [rD, rI]
        = [rD, rI] := by
      simp [List.filter, hmD, hmI]
    have hL : find_declarations_for_elu [rD, rI] (strip prenom) (strip nom)
        = sortByDateDesc [rD, rI] := by
      unfold find_declarations_for_elu
      rw [hfilter]
    have hdsp : (find_declarations_for_elu [rD, rI] (strip prenom) (strip nom)).find?
        (fun r => DSP_TYPES.contains (get_declaration_type r)) = some rD := by
      rw [hL, sortByDateDesc_pair]
      by_cases hc : parse_date rI ≤ parse_date rD
      · rw [if_pos hc]
        exact List.find?_cons_of_pos _ htD
      · rw [if_neg hc, List.find?_cons_of_neg _ (by simpa using di_not_dsp htI)]
        exact List.find?_cons_of_pos _ htD
    have hdi : (find_declarations_for_elu [rD, rI] (strip prenom) (strip nom)).find?
        (fun r => DI_TYPES.contains (get_declaration_type r)) = some rI := by
      rw [hL, sortByDateDesc_pair]
      by_cases hc : parse_date rI ≤ parse_date rD
      · rw [if_pos hc, List.find?_cons_of_neg _ (by simpa using dsp_not_di htD)]
        exact List.find?_cons_of_pos _ htI
      · rw [if_neg hc]
        exact List.find?_cons_of_pos _ htI
    have hne : (find_declarations_for_elu [rD, rI] (strip prenom) (strip nom)).isEmpty = false := by
      rw [hL, sortByDateDesc_pair]
      by_cases hc : parse_date rI ≤ parse_date rD
      · rw [if_pos hc]
        rfl
      · rw [if_neg hc]
        rfl
    simp only [fetch_hatvp_complete_for_elu]
    rw [if_neg (by push_neg; exact ⟨hp, hn⟩)]
    rw [hne]
    simp only [Bool.false_eq_true, if_false, hdsp, hdi]
    simp only [process_row, huD, huI, hdD, hdI, parse_declaration_xml]
    refine ⟨_, rfl, ?_, ?_, ?_, ?_, ?_, ?_, ?_⟩ <;>
      simp [consolidate_parsed, init_result, merge_famille, declMetaOf]

/-- C6 witness at a concrete two-document pool with one malformed file. -/
theorem malformed_document_skipped_batch_continues_witness :
    ∃ res, fetch_hatvp_complete_for_elu dlC6 "T" "Paul" "Moreau" [exRowD, exRowI] = some res ∧
      res.declarations = [declMetaOf (parse_xml_root exXmlI exUrlI) exUrlI] ∧
      res.instruments_financiers = (parse_xml_root exXmlI exUrlI).instruments_financiers ∧
      res.biens_immobiliers = (parse_xml_root exXmlI exUrlI).biens_immobiliers ∧
      res.prets_bancaires = (parse_xml_root exXmlI exUrlI).prets_bancaires ∧
      res.mandats_electifs = (parse_xml_root exXmlI exUrlI).mandats_electifs ∧
      res.fonctions_dirigeantes = (parse_xml_root exXmlI exUrlI).fonctions_dirigeantes ∧
      res.famille = some (parse_xml_root exXmlI exUrlI).famille :=
  malformed_document_skipped_batch_continues.2 dlC6 "T" "Paul" "Moreau" exRowD exRowI
    exUrlD exUrlI exXmlI (by decide) (by decide) (by decide) (by decide) (by decide)
    (by decide) (by decide) (by decide) rfl rfl

/-! ### Claim C1 -/

/-- C1: the Declaration Selector retains one declaration per category group,
namely a most-recently-filed one: whatever row the DSP-family selection
returns has maximal filing date among the attributed DSP-family rows; and on
a pool of three patrimony declarations for one person with filing dates
D1 < D2 < D3, exactly the declaration filed on D3 is retained and supplies
every record list of the profile, the other two contributing nothing. -/
theorem selector_retains_most_recent_dsp :
    (∀ (index : List Row) (prenom nom : String) (r0 : Row),
        (find_declarations_for_elu index prenom nom).find?
            (fun r => DSP_TYPES.contains (get_declaration_type r)) = some r0 →
        DSP_TYPES.contains (get_declaration_type r0) = true ∧
          ∀ r ∈ find_declarations_for_elu index prenom nom,
            DSP_TYPES.contains (get_declaration_type r) = true →
              parse_date r ≤ parse_date r0) ∧
    (∀ (download : String → Option RawDoc) (now prenom nom : String) (r1 r2 r3 : Row)
        (u3 : String) (x3 : Xml),
        strip prenom ≠ "" → strip nom ≠ "" →
        matches_elu (normalize_name (strip prenom)) (normalize_name (strip nom)) r1 = true →
        matches_elu (normalize_name (strip prenom)) (normalize_name (strip nom)) r2 = true →
        matches_elu (normalize_name (strip prenom)) (normalize_name (strip nom)) r3 = true →
        DSP_TYPES.contains (get_declaration_type r1) = true →
        DSP_TYPES.contains (get_declaration_type r2) = true →
        DSP_TYPES.contains (get_declaration_type r3) = true →
        parse_date r1 < parse_date r2 → parse_date r2 < parse_date r3 →
        get_xml_url r3 = some u3 → download u3 = some (.wellFormed x3) →
        ∃ res, fetch_hatvp_complete_for_elu download now prenom nom [r1, r2, r3] = some res ∧
          res.declarations = [declMetaOf (parse_xml_root x3 u3) u3] ∧
          res.instruments_financiers = (parse_xml_root x3 u3).instruments_financiers ∧
          res.participations_financieres = (parse_xml_root x3 u3).participations_financieres ∧
          res.biens_immobiliers = (parse_xml_root x3 u3).biens_immobiliers ∧
          res.prets_bancaires = (parse_xml_root x3 u3).prets_bancaires ∧
          res.autres_biens = (parse_xml_root x3 u3).autres_biens ∧
          res.revenus_activites = (parse_xml_root x3 u3).revenus_activites ∧
          res.mandats_electifs = (parse_xml_root x3 u3).mandats_electifs ∧
          res.fonctions_dirigeantes = (parse_xml_root x3 u3).fonctions_dirigeantes ∧
          res.famille = some (parse_xml_root x3 u3).famille) := by
  constructor
  · intro index prenom nom r0 hfind
    have hp : (find_declarations_for_elu index prenom nom).Pairwise
        (fun u v => parse_date v ≤ parse_date u) := by
      unfold find_declarations_for_elu
      exact pairwise_sortByDateDesc _
    exact find_max_of_sorted hp hfind
  · intro download now prenom nom r1 r2 r3 u3 x3 hp hn hm1 hm2 hm3 ht1 ht2 ht3 h12 h23 hu3 hd3
    have hfilter : List.filter
        (matches_elu (normalize_name (strip prenom)) (normalize_name (strip nom))) [r1, r2, r3]
        = [r1, r2, r3] := by
      simp [List.filter, hm1, hm2, hm3]
    have hL : find_declarations_for_elu [r1, r2, r3] (strip prenom) (strip nom)
        = [r3, r2, r1] := by
      unfold find_declarations_for_elu
      rw [hfilter]
      have e23 : ¬ (parse_date r3 ≤ parse_date r2) := not_le.mpr h23
      have e13 : ¬ (parse_date r3 ≤ parse_date r1) := not_le.mpr (lt_trans h12 h23)
      have e12 : ¬ (parse_date r2 ≤ parse_date r1) := not_le.mpr h12
      simp only [sortByDateDesc, insertByDateDesc, if_neg e23, if_neg e13, if_neg e12]
    have hdsp : (find_declarations_for_elu [r1, r2, r3] (strip prenom) (strip nom)).find?
        (fun r => DSP_TYPES.contains (get_declaration_type r)) = some r3 := by
      rw [hL]
      exact List.find?_cons_of_pos _ ht3
    have hdi : (find_declarations_for_elu [r1, r2, r3] (strip prenom) (strip nom)).find?
        (fun r => DI_TYPES.contains (get_declaration_type r)) = none := by
      rw [hL, List.find?_cons_of_neg _ (by simpa using dsp_not_di ht3),
        List.find?_cons_of_neg _ (by simpa using dsp_not_di ht2),
        List.find?_cons_of_neg _ (by simpa using dsp_not_di ht1)]
      rfl
    have hne : (find_declarations_for_elu [r1, r2, r3] (strip prenom) (strip nom)).isEmpty
        = false := by
      rw [hL]
      rfl
    simp only [fetch_hatvp_complete_for_elu]
    rw [if_neg (by push_neg; exact ⟨hp, hn⟩)]
    rw [hne]
    simp only [Bool.false_eq_true, if_false, hdsp, hdi]
    simp only [process_row, hu3, hd3, parse_declaration_xml]
    refine ⟨_, rfl, ?_, ?_, ?_, ?_, ?_, ?_, ?_, ?_, ?_, ?_⟩ <;>
      simp [consolidate_parsed, init_result, merge_famille, declMetaOf]

/-- C1 witness: three concrete patrimony rows with increasing filing dates;
the most recent supplies the whole profile. -/
theorem selector_retains_most_recent_dsp_witness :
    (DSP_TYPES.contains (get_declaration_type exRowA3) = true ∧
      ∀ r ∈ find_declarations_for_elu [exRowA1, exRowA2, exRowA3] "Marie" "Durand",
        DSP_TYPES.contains (get_declaration_type r) = true →
          parse_date r ≤ parse_date exRowA3) ∧
    (∃ res, fetch_hatvp_complete_for_elu dlA "T" "Marie" "Durand" [exRowA1, exRowA2, exRowA3]
        = some res ∧
      res.declarations = [declMetaOf (parse_xml_root exXmlA exUrlA) exUrlA] ∧
      res.instruments_financiers = (parse_xml_root exXmlA exUrlA).instruments_financiers ∧
      res.participations_financieres = (parse_xml_root exXmlA exUrlA).participations_financieres ∧
      res.biens_immobiliers = (parse_xml_root exXmlA exUrlA).biens_immobiliers ∧
      res.prets_bancaires = (parse_xml_root exXmlA exUrlA).prets_bancaires ∧
      res.autres_biens = (parse_xml_root exXmlA exUrlA).autres_biens ∧
      res.revenus_activites = (parse_xml_root exXmlA exUrlA).revenus_activites ∧
      res.mandats_electifs = (parse_xml_root exXmlA exUrlA).mandats_electifs ∧
      res.fonctions_dirigeantes = (parse_xml_root exXmlA exUrlA).fonctions_dirigeantes ∧
      res.famille = some (parse_xml_root exXmlA exUrlA).famille) :=
  ⟨selector_retains_most_recent_dsp.1 [exRowA1, exRowA2, exRowA3] "Marie" "Durand" exRowA3
      (by decide),
    selector_retains_most_recent_dsp.2 dlA "T" "Marie" "Durand" exRowA1 exRowA2 exRowA3
      exUrlA exXmlA (by decide) (by decide) (by decide) (by decide) (by decide) (by decide)
      (by decide) (by decide) (by decide) (by decide) (by decide) rfl⟩

end Hatvp
